import Mathlib

/-! Shallow embedding of the boardgame_framework coordinate and cell-registry
code (src/boardgame_framework/coord.py and src/boardgame_framework/cell.py),
together with theorems settling the specification claims about it.

Integers are modelled as Lean Int (Python ints are unbounded).  Python `%`
with a positive modulus is floor-mod, which agrees with Lean Int `%`
(Euclidean mod) whenever the modulus is positive; Python `//` is only applied
to even numerators in this code (or has a positive divisor), where it agrees
with Lean Int `/`.  Python `n & 1` on an int equals `n % 2` in both languages
(two's complement).  Fallible Python code (raise) is modelled with Except. -/

/-- Component triple of a cubed/hex coordinate: the x, y, z fields of
CubedCoord in coord.py, without the owning-system reference (which is
irrelevant to the direction-table and conversion claims). -/
structure HexVec where
  x : Int
  y : Int
  z : Int
deriving DecidableEq

/-- Component pair of a rectangular-family coordinate: the x, y fields of
RectCoord in coord.py, without the owning-system reference. -/
structure RectVec where
  x : Int
  y : Int
deriving DecidableEq

/-- Componentwise negation of a hex vector.  The source has no __neg__; this
is the mathematical notion "points the opposite direction" used by the spec
when it says two edges face each other. -/
def hexNeg (v : HexVec) : HexVec := ⟨-v.x, -v.y, -v.z⟩

/-- Componentwise negation of a rect vector (mathematical notion, see hexNeg). -/
def rectNeg (v : RectVec) : RectVec := ⟨-v.x, -v.y⟩

/-- The direction table built in HexCoordinateSystem.__init__ (coord.py lines
283-285): [(-1,1,0), (0,1,-1), (1,0,-1), (1,-1,0), (0,-1,1), (-1,0,1)]. -/
def hexDirs : List HexVec :=
  [⟨-1, 1, 0⟩, ⟨0, 1, -1⟩, ⟨1, 0, -1⟩, ⟨1, -1, 0⟩, ⟨0, -1, 1⟩, ⟨-1, 0, 1⟩]

/-- The direction table built in RectCoordinateSystem.__init__ (coord.py lines
469-470): [(-1,0), (0,-1), (1,0), (0,1)]. -/
def rectDirs : List RectVec :=
  [⟨-1, 0⟩, ⟨0, -1⟩, ⟨1, 0⟩, ⟨0, 1⟩]

/-- Python list indexing self.dirs[i] for the hex table; every call site in
the claims keeps the index below 6, where the default is never consulted. -/
def hexDir (i : Nat) : HexVec := hexDirs.getD i ⟨0, 0, 0⟩

/-- Python list indexing self.dirs[i] for the rect table; call sites keep the
index below 4. -/
def rectDir (i : Nat) : RectVec := rectDirs.getD i ⟨0, 0⟩

/-- HexCoordinateSystem.get_mapping_offset (coord.py lines 351-359), with
len(self.dirs) = 6:
cnt = selfedge_idx - ((otheredge_idx + 3) % 6); return cnt + 6 if cnt < 0 else cnt. -/
def get_mapping_offset (selfedge_idx otheredge_idx : Int) : Int :=
  let cnt := selfedge_idx - ((otheredge_idx + 3) % 6)
  if cnt < 0 then cnt + 6 else cnt

/-- CubedCoord.__getitem__ (coord.py lines 198-207) at the in-range indices
0, 1, 2; the rotation transform only ever indexes with a value reduced mod 3,
so the out-of-range ValueError path is unreachable there. -/
def vecComp (v : HexVec) : Nat → Int
  | 0 => v.x
  | 1 => v.y
  | _ => v.z

/-- The sign factor of make_rotation_transform (coord.py line 339):
neg = -1 if (cnt & 1) else 1.  Python cnt & 1 equals cnt % 2 for every int
(two's complement), which matches Lean Int %. -/
def rotNeg (cnt : Int) : Int := if cnt % 2 = 1 then -1 else 1

/-- The cyclic-permutation amount of make_rotation_transform (coord.py line
340): rotate = cnt % len(self.dirs) % 3, with len(self.dirs) = 6. -/
def rotAmt (cnt : Int) : Nat := ((cnt % 6) % 3).toNat

/-- HexCoordinateSystem.make_rotation_transform (coord.py lines 336-349)
applied to a vector: newvec = (neg*vec[(0+rotate)%3], neg*vec[(1+rotate)%3],
neg*vec[(2+rotate)%3]). -/
def make_rotation_transform (cnt : Int) (v : HexVec) : HexVec :=
  ⟨rotNeg cnt * vecComp v ((0 + rotAmt cnt) % 3),
   rotNeg cnt * vecComp v ((1 + rotAmt cnt) % 3),
   rotNeg cnt * vecComp v ((2 + rotAmt cnt) % 3)⟩

/-- Result discriminator for the Except-modelled fallible operations. -/
def isOkE {α : Type} : Except String α → Bool
  | .ok _ => true
  | .error _ => false

/-- Successful-result projection for the Except-modelled operations. -/
def toOpt {α : Type} : Except String α → Option α
  | .ok a => some a
  | .error _ => none

/-- HexCoord.__post_init__ (coord.py lines 217-220), exactly as written in
the source: it raises ValueError when self.x+self.y+self.z == 0 and returns
normally otherwise. -/
def hexCoord_mk (x y z : Int) : Except String HexVec :=
  if x + y + z = 0 then
    .error "The coordinates do not conform to the hexagonal constraint"
  else
    .ok ⟨x, y, z⟩

/-- C1: the spec requires HexCoord construction to accept exactly when
x+y+z=0, but the source check is inverted: construction succeeds iff
x+y+z is NOT 0, so the valid coordinate (0,0,0) is rejected and the invalid
coordinate (1,0,0) is accepted. -/
theorem hexcoord_constraint_inverted :
    (∀ x y z : Int, isOkE (hexCoord_mk x y z) = true ↔ x + y + z ≠ 0) ∧
    isOkE (hexCoord_mk 0 0 0) = false ∧
    isOkE (hexCoord_mk 1 0 0) = true := by
  refine ⟨?_, by decide, by decide⟩
  intro x y z
  unfold hexCoord_mk
  by_cases h : x + y + z = 0 <;> simp [h, isOkE]

/-- C2: for edge indices in 0..5, get_mapping_offset returns an offset in
0..5 with dirs[(otheredge + offset) mod 6] equal to the negation of
dirs[selfedge], so the two edges face each other. -/
theorem mapping_offset_faces_opposite (se oe : Nat) (h1 : se < 6) (h2 : oe < 6) :
    0 ≤ get_mapping_offset se oe ∧ get_mapping_offset se oe < 6 ∧
    hexDir (((oe : Int) + get_mapping_offset se oe) % 6).toNat
      = hexNeg (hexDir se) := by
  interval_cases se <;> interval_cases oe <;> decide

/-- C2 witness at selfedge 0, otheredge 0. -/
theorem mapping_offset_faces_opposite_witness :
    0 ≤ get_mapping_offset ((0 : Nat) : Int) ((0 : Nat) : Int) ∧
    get_mapping_offset ((0 : Nat) : Int) ((0 : Nat) : Int) < 6 ∧
    hexDir ((((0 : Nat) : Int) +
      get_mapping_offset ((0 : Nat) : Int) ((0 : Nat) : Int)) % 6).toNat
      = hexNeg (hexDir 0) :=
  mapping_offset_faces_opposite 0 0 (by decide) (by decide)

/-- C10: the hex direction table has 6 entries with opposite indices (i and
(i+3) mod 6) carrying opposite vectors and every entry summing to zero, and
the rect direction table has 4 entries with opposite indices (i and (i+2)
mod 4) carrying opposite vectors. -/
theorem direction_tables_opposite :
    hexDirs.length = 6 ∧ rectDirs.length = 4 ∧
    (∀ i < 6, hexDir ((i + 3) % 6) = hexNeg (hexDir i)) ∧
    (∀ i < 6, (hexDir i).x + (hexDir i).y + (hexDir i).z = 0) ∧
    (∀ i < 4, rectDir ((i + 2) % 4) = rectNeg (rectDir i)) := by
  decide

/-- The sign factor depends on cnt only through cnt mod 6 (2 divides 6). -/
theorem rotNeg_mod (cnt : Int) : rotNeg cnt = rotNeg (cnt % 6) := by
  unfold rotNeg
  rw [Int.emod_emod_of_dvd cnt (by norm_num : (2 : Int) ∣ 6)]

/-- The permutation amount depends on cnt only through cnt mod 6. -/
theorem rotAmt_mod (cnt : Int) : rotAmt cnt = rotAmt (cnt % 6) := by
  unfold rotAmt
  rw [Int.emod_emod_of_dvd cnt (dvd_refl 6)]

/-- The whole rotation transform depends on cnt only through cnt mod 6. -/
theorem make_rotation_transform_mod (cnt : Int) (v : HexVec) :
    make_rotation_transform cnt v = make_rotation_transform (cnt % 6) v := by
  unfold make_rotation_transform
  rw [← rotNeg_mod, ← rotAmt_mod]

/-- C3 counterexample: the claim says make_rotation_transform(cnt) maps
dirs[i] to dirs[(i+cnt) mod 6]; at cnt = 1 and i = 0 the transform actually
yields dirs[5], not dirs[(0+1) mod 6] = dirs[1]. -/
theorem rotation_transform_plus_cnt_false :
    make_rotation_transform 1 (hexDir 0) = hexDir 5 ∧
    make_rotation_transform 1 (hexDir 0) ≠ hexDir ((0 + 1) % 6) := by
  decide

/-- C3 amended: for every rotation count cnt and edge index i in 0..5, the
transform built by make_rotation_transform(cnt) maps dirs[i] to
dirs[(i - cnt) mod 6] — a rotation by minus cnt steps of the direction
index.  (The source defines no rotation transform at all for the Rect
family.) -/
theorem rotation_transform_minus_cnt (cnt : Int) (i : Nat) (h : i < 6) :
    make_rotation_transform cnt (hexDir i) = hexDir ((((i : Int) - cnt) % 6).toNat) := by
  have h0 : (0 : Int) ≤ cnt % 6 := Int.emod_nonneg cnt (by norm_num)
  have h1 : cnt % 6 < 6 := Int.emod_lt_of_pos cnt (by norm_num)
  have key : ∀ r : Nat, r < 6 → ∀ j : Nat, j < 6 →
      make_rotation_transform (r : Int) (hexDir j)
        = hexDir ((((j : Int) - (r : Int)) % 6).toNat) := by decide
  have hr : (((cnt % 6).toNat : Nat) : Int) = cnt % 6 := Int.toNat_of_nonneg h0
  have hrlt : (cnt % 6).toNat < 6 := by omega
  have e1 : make_rotation_transform cnt (hexDir i)
      = make_rotation_transform (((cnt % 6).toNat : Nat) : Int) (hexDir i) := by
    rw [hr, ← make_rotation_transform_mod]
  have e2 : (((i : Int) - cnt) % 6).toNat
      = (((i : Int) - (((cnt % 6).toNat : Nat) : Int)) % 6).toNat := by
    rw [hr]
    congr 1
    conv_lhs => rw [Int.sub_emod]
    conv_rhs => rw [Int.sub_emod]
    rw [Int.emod_emod_of_dvd cnt (dvd_refl 6)]
  rw [e1, e2]
  exact key _ hrlt i h

/-- C3 witness at cnt 1, i 0. -/
theorem rotation_transform_minus_cnt_witness :
    make_rotation_transform 1 (hexDir 0) = hexDir (((((0 : Nat) : Int) - 1) % 6).toNat) :=
  rotation_transform_minus_cnt 1 0 (by decide)

/-- hex_from_oddr (coord.py lines 509-517), the converter from an oddr
coordinate into a hex system: x = c.x + (c.y + (c.y & 1)) // 2, z = -c.y,
y = -x - z.  The numerator of the // is always even, so // 2 equals Lean / 2. -/
def hex_from_oddr (c : RectVec) : HexVec :=
  let x := c.x + (c.y + c.y % 2) / 2
  let z := -c.y
  let y := -x - z
  ⟨x, y, z⟩

/-- oddr_from_hex (coord.py lines 519-525), the converter from a hex
coordinate into an oddr system: x = c.x + (c.z - (c.z & 1)) // 2, y = -c.z. -/
def oddr_from_hex (c : HexVec) : RectVec :=
  ⟨c.x + (c.z - c.z % 2) / 2, -c.z⟩

/-- hex_from_evenr (coord.py lines 527-533), the converter from an evenr
coordinate into a hex system, exactly as written in the source:
x = c.x - (c.y + (c.y & 1)) // 2, z = -c.y, y = -x + z. -/
def hex_from_evenr (c : RectVec) : HexVec :=
  let x := c.x - (c.y + c.y % 2) / 2
  let z := -c.y
  let y := -x + z
  ⟨x, y, z⟩

/-- evenr_from_hex (coord.py lines 535-540), the converter from a hex
coordinate into an evenr system, exactly as written in the source:
y = c.x + (c.z + (c.z & 1)) // 2, x = -c.z. -/
def evenr_from_hex (c : HexVec) : RectVec :=
  ⟨-c.z, c.x + (c.z + c.z % 2) / 2⟩

/-- oddq_from_hex (coord.py lines 542-547): x = c.x,
y = c.z + (c.x - (c.x & 1)) // 2. -/
def oddq_from_hex (c : HexVec) : RectVec :=
  ⟨c.x, c.z + (c.x - c.x % 2) / 2⟩

/-- hex_from_oddq (coord.py lines 549-555): x = c.x,
z = c.y - (c.x - (c.x & 1)) // 2, y = -x - z. -/
def hex_from_oddq (c : RectVec) : HexVec :=
  let x := c.x
  let z := c.y - (c.x - c.x % 2) / 2
  ⟨x, -x - z, z⟩

/-- evenq_from_hex (coord.py lines 557-562): x = c.x,
y = c.z + (c.x + (c.x & 1)) // 2. -/
def evenq_from_hex (c : HexVec) : RectVec :=
  ⟨c.x, c.z + (c.x + c.x % 2) / 2⟩

/-- hex_from_evenq (coord.py lines 564-570): x = c.x,
z = c.y - (c.x + (c.x & 1)) // 2, y = -x - z. -/
def hex_from_evenq (c : RectVec) : HexVec :=
  let x := c.x
  let z := c.y - (c.x + c.x % 2) / 2
  ⟨x, -x - z, z⟩

/-- The oddr pair does round-trip from the rect side. -/
theorem oddr_roundtrip (c : RectVec) : oddr_from_hex (hex_from_oddr c) = c := by
  cases c with
  | mk x y =>
    simp only [hex_from_oddr, oddr_from_hex, RectVec.mk.injEq, true_and, and_true]
    omega

/-- The oddr pair does round-trip from the hex side on constraint-satisfying
hex coordinates. -/
theorem hex_oddr_roundtrip (c : HexVec) (h : c.x + c.y + c.z = 0) :
    hex_from_oddr (oddr_from_hex c) = c := by
  cases c with
  | mk x y z =>
    simp only at h
    simp only [hex_from_oddr, oddr_from_hex, HexVec.mk.injEq, true_and, and_true]
    omega

/-- The oddq pair does round-trip from the rect side. -/
theorem oddq_roundtrip (c : RectVec) : oddq_from_hex (hex_from_oddq c) = c := by
  cases c with
  | mk x y =>
    simp only [hex_from_oddq, oddq_from_hex, RectVec.mk.injEq, true_and, and_true]
    omega

/-- The oddq pair does round-trip from the hex side on constraint-satisfying
hex coordinates. -/
theorem hex_oddq_roundtrip (c : HexVec) (h : c.x + c.y + c.z = 0) :
    hex_from_oddq (oddq_from_hex c) = c := by
  cases c with
  | mk x y z =>
    simp only at h
    simp only [hex_from_oddq, oddq_from_hex, HexVec.mk.injEq, true_and, and_true]
    omega

/-- The evenq pair does round-trip from the rect side. -/
theorem evenq_roundtrip (c : RectVec) : evenq_from_hex (hex_from_evenq c) = c := by
  cases c with
  | mk x y =>
    simp only [hex_from_evenq, evenq_from_hex, RectVec.mk.injEq, true_and, and_true]
    omega

/-- The evenq pair does round-trip from the hex side on constraint-satisfying
hex coordinates. -/
theorem hex_evenq_roundtrip (c : HexVec) (h : c.x + c.y + c.z = 0) :
    hex_from_evenq (evenq_from_hex c) = c := by
  cases c with
  | mk x y z =>
    simp only at h
    simp only [hex_from_evenq, evenq_from_hex, HexVec.mk.injEq, true_and, and_true]
    omega

/-- C5: the evenr pair does NOT round-trip: the evenr coordinate (1,0) maps
to the cubed triple (1,-1,0) and back to (0,1), not (1,0).  (The two evenr
converters use mismatched axis and sign conventions; the oddr, oddq and
evenq pairs do round-trip, see the roundtrip lemmas above.) -/
theorem evenr_roundtrip_fails :
    hex_from_evenr ⟨1, 0⟩ = ⟨1, -1, 0⟩ ∧
    evenr_from_hex (hex_from_evenr ⟨1, 0⟩) = ⟨0, 1⟩ ∧
    evenr_from_hex (hex_from_evenr ⟨1, 0⟩) ≠ ⟨1, 0⟩ := by
  decide

/-- CubedCoord (coord.py lines 164-207) with its owning-system reference.
CoordinateSystem defines no __eq__, so Python compares systems by object
identity; instances are modelled by a numeric identity tag. -/
structure CubedCoord where
  x : Int
  y : Int
  z : Int
  system : Nat
deriving DecidableEq

/-- RectCoord (coord.py lines 223-259) with its owning-system reference. -/
structure RectCoord where
  x : Int
  y : Int
  system : Nat
deriving DecidableEq

/-- CubedCoord.__add__ (coord.py lines 174-181).  The isinstance check is
enforced by Lean typing (both operands are CubedCoord); the remaining check
raises unless the two coordinates belong to the same system instance. -/
def cubedAdd (a b : CubedCoord) : Except String CubedCoord :=
  if a.system ≠ b.system then
    .error "The coordinates must belong to the same system"
  else
    .ok ⟨a.x + b.x, a.y + b.y, a.z + b.z, a.system⟩

/-- CubedCoord.__sub__ (coord.py lines 183-190). -/
def cubedSub (a b : CubedCoord) : Except String CubedCoord :=
  if a.system ≠ b.system then
    .error "The coordinates must belong to the same system"
  else
    .ok ⟨a.x - b.x, a.y - b.y, a.z - b.z, a.system⟩

/-- RectCoord.__add__ (coord.py lines 232-238). -/
def rectAdd (a b : RectCoord) : Except String RectCoord :=
  if a.system ≠ b.system then
    .error "The coordinates must belong to the same system"
  else
    .ok ⟨a.x + b.x, a.y + b.y, a.system⟩

/-- RectCoord.__sub__ (coord.py lines 240-246). -/
def rectSub (a b : RectCoord) : Except String RectCoord :=
  if a.system ≠ b.system then
    .error "The coordinates must belong to the same system"
  else
    .ok ⟨a.x - b.x, a.y - b.y, a.system⟩

/-- C6: for coordinates owned by the same system instance, (a+b)-b succeeds
and returns a; for coordinates owned by different instances both addition
and subtraction fail, for the cubed and the rect coordinate type alike. -/
theorem coord_add_sub_algebra :
    (∀ a b : CubedCoord, a.system = b.system →
       ∃ c, cubedAdd a b = .ok c ∧ cubedSub c b = .ok a) ∧
    (∀ a b : CubedCoord, a.system ≠ b.system →
       isOkE (cubedAdd a b) = false ∧ isOkE (cubedSub a b) = false) ∧
    (∀ a b : RectCoord, a.system = b.system →
       ∃ c, rectAdd a b = .ok c ∧ rectSub c b = .ok a) ∧
    (∀ a b : RectCoord, a.system ≠ b.system →
       isOkE (rectAdd a b) = false ∧ isOkE (rectSub a b) = false) := by
  refine ⟨?_, ?_, ?_, ?_⟩
  · rintro ⟨ax, ay, az, as⟩ ⟨bx, bz, bw, bs⟩ h
    simp only at h
    subst h
    refine ⟨⟨ax + bx, ay + bz, az + bw, as⟩, ?_, ?_⟩
    · simp [cubedAdd]
    · simp only [cubedSub, ne_eq, not_true_eq_false, if_false, ite_false,
        if_neg (by simp : ¬ (as ≠ as)), Except.ok.injEq, CubedCoord.mk.injEq]
      refine ⟨by ring, by ring, by ring, trivial⟩
  · intro a b h
    simp [cubedAdd, cubedSub, h, isOkE]
  · rintro ⟨ax, ay, as⟩ ⟨bx, bz, bs⟩ h
    simp only at h
    subst h
    refine ⟨⟨ax + bx, ay + bz, as⟩, ?_, ?_⟩
    · simp [rectAdd]
    · simp only [rectSub, ne_eq, not_true_eq_false, if_false, ite_false,
        if_neg (by simp : ¬ (as ≠ as)), Except.ok.injEq, RectCoord.mk.injEq]
      refine ⟨by ring, by ring, trivial⟩
  · intro a b h
    simp [rectAdd, rectSub, h, isOkE]

/-- C6 witness: same-system cubed and rect pairs round-trip, cross-system
pairs fail, at concrete coordinates. -/
theorem coord_add_sub_algebra_witness :
    (∃ c, cubedAdd ⟨1, 2, 3, 0⟩ ⟨4, 5, 6, 0⟩ = .ok c ∧
       cubedSub c ⟨4, 5, 6, 0⟩ = .ok ⟨1, 2, 3, 0⟩) ∧
    (isOkE (cubedAdd ⟨1, 2, 3, 0⟩ ⟨4, 5, 6, 1⟩) = false ∧
       isOkE (cubedSub ⟨1, 2, 3, 0⟩ ⟨4, 5, 6, 1⟩) = false) ∧
    (∃ c, rectAdd ⟨1, 2, 0⟩ ⟨3, 4, 0⟩ = .ok c ∧
       rectSub c ⟨3, 4, 0⟩ = .ok ⟨1, 2, 0⟩) ∧
    (isOkE (rectAdd ⟨1, 2, 0⟩ ⟨3, 4, 1⟩) = false ∧
       isOkE (rectSub ⟨1, 2, 0⟩ ⟨3, 4, 1⟩) = false) :=
  ⟨coord_add_sub_algebra.1 _ _ rfl,
   coord_add_sub_algebra.2.1 _ _ (by decide),
   coord_add_sub_algebra.2.2.1 _ _ rfl,
   coord_add_sub_algebra.2.2.2 _ _ (by decide)⟩

/-- Cell (cell.py lines 24-67) restricted to the fields the registry claims
read: uid, optional name, the default coordinate, and the per-system
coordinate bag (cell.coords, keyed by system id).  Distinct Python cell
objects are modelled by records differing at least in uid. -/
structure Cell where
  uid : Nat
  name : Option String
  coord : Option CubedCoord
  coords : List (Nat × CubedCoord)
deriving DecidableEq

/-- Python dict lookup d.get(k) over an insertion-ordered association list. -/
def assocLookup {α β : Type} [DecidableEq α] (l : List (α × β)) (k : α) : Option β :=
  (l.find? (fun p => decide (p.fst = k))).map Prod.snd

/-- Python del d[k]: drop the binding for k. -/
def assocErase {α β : Type} [DecidableEq α] (l : List (α × β)) (k : α) : List (α × β) :=
  l.filter (fun p => decide (p.fst ≠ k))

/-- Python dict assignment d[k] = v: bind k to v (any previous binding for k
is replaced; binding order is irrelevant to every lookup in the claims). -/
def assocInsert {α β : Type} [DecidableEq α] (l : List (α × β)) (k : α) (v : β) :
    List (α × β) :=
  assocErase l k ++ [(k, v)]

/-- CellMgr per-instance indexes (cell.py lines 230-234): _cells_by_coord,
_cells_by_coord_tuple (system id to set of cells), _cells_by_name,
_cells_by_uid. -/
structure CellMgrState where
  cells_by_coord : List (CubedCoord × Cell)
  cells_by_coord_tuple : List (Nat × List Cell)
  cells_by_name : List (String × Cell)
  cells_by_uid : List (Nat × Cell)
deriving DecidableEq

/-- The freshly initialized index state of CellMgr.__init__. -/
def emptyMgr : CellMgrState := ⟨[], [], [], []⟩

/-- One comparison of the membership test at cell.py line 609,
coord in self._cells_by_coord.items(): dict.items() yields (key, value)
pairs, and in Python a CubedCoord dataclass instance never compares equal to
a pair, so each comparison is False. -/
def coordEqItemsPair (_ : CubedCoord) (_ : CubedCoord × Cell) : Bool := false

/-- The whole membership test coord in self._cells_by_coord.items() of
cell.py line 609: false on every state, which makes the RuntimeError at line
613 unreachable. -/
def coordInItems (coord : CubedCoord) (d : List (CubedCoord × Cell)) : Bool :=
  d.any (fun kv => coordEqItemsPair coord kv)

/-- CellMgr.register_coord_to_cell (cell.py lines 602-617).  The class-level
_register_coord_callbacks list is empty in the flows under the claims.  After
the (unreachable) duplicate check: _cells_by_coord[coord] = cell, and cell is
added to the _cells_by_coord_tuple set for coord.system (creating it first if
absent). -/
def register_coord_to_cell (st : CellMgrState) (cell : Cell) (coord : CubedCoord) :
    Except String CellMgrState :=
  if coordInItems coord st.cells_by_coord then
    .error "Coordinate Already Registered."
  else
    .ok { st with
      cells_by_coord := assocInsert st.cells_by_coord coord cell,
      cells_by_coord_tuple :=
        match assocLookup st.cells_by_coord_tuple coord.system with
        | none => assocInsert st.cells_by_coord_tuple coord.system [cell]
        | some s => assocInsert st.cells_by_coord_tuple coord.system
            (if cell ∈ s then s else s ++ [cell]) }

/-- CellMgr.register_cell (cell.py lines 619-627): index by name when the
cell has one, then by coordinate when it has a default coordinate, then by
uid. -/
def register_cell (st : CellMgrState) (cell : Cell) : Except String CellMgrState :=
  let st1 :=
    match cell.name with
    | some n => { st with cells_by_name := assocInsert st.cells_by_name n cell }
    | none => st
  match (match cell.coord with
         | some co => register_coord_to_cell st1 cell co
         | none => .ok st1) with
  | .error e => .error e
  | .ok st2 => .ok { st2 with cells_by_uid := assocInsert st2.cells_by_uid cell.uid cell }

/-- One comparison of the membership test at cell.py line 642,
cell in self._cells_by_uid: the keys of _cells_by_uid are integer uids, and
in Python a Cell object never compares equal to an int, so each comparison
is False. -/
def cellEqUidKey (_ : Cell) (_ : Nat) : Bool := false

/-- The whole membership test cell in self._cells_by_uid of cell.py line
642: false on every state, which makes the uid deletion at line 643
unreachable. -/
def cellInUidKeys (cell : Cell) (d : List (Nat × Cell)) : Bool :=
  d.any (fun kv => cellEqUidKey cell kv.fst)

/-- One step of the loop at cell.py lines 645-647:
self._cells_by_coord_tuple[sysid].remove(cell).  A missing sysid key or a
cell absent from the set raises KeyError. -/
def removeFromCoordTupleIndex (d : List (Nat × List Cell)) (sysid : Nat) (cell : Cell) :
    Except String (List (Nat × List Cell)) :=
  match assocLookup d sysid with
  | none => .error "KeyError: system id not indexed"
  | some s =>
      if cell ∈ s then .ok (assocInsert d sysid (s.erase cell))
      else .error "KeyError: cell not in set"

/-- The loop at cell.py lines 645-647 over all system ids in cell.coords. -/
def removeFromAllCoordTuples (d : List (Nat × List Cell)) (sysids : List Nat)
    (cell : Cell) : Except String (List (Nat × List Cell)) :=
  match sysids with
  | [] => .ok d
  | sid :: rest =>
    match removeFromCoordTupleIndex d sid cell with
    | .error e => .error e
    | .ok d2 => removeFromAllCoordTuples d2 rest cell

/-- CellMgr.unregister_cell (cell.py lines 629-647) for a non-None cell:
delete the name binding if the name is a key, delete the coord binding if
the default coord is a key, then the (unreachable) uid deletion, then remove
the cell from the by-system set for every system in cell.coords. -/
def unregister_cell (st : CellMgrState) (cell : Cell) : Except String CellMgrState :=
  let st1 :=
    match cell.name with
    | some n =>
        if (assocLookup st.cells_by_name n).isSome then
          { st with cells_by_name := assocErase st.cells_by_name n }
        else st
    | none => st
  let st2 :=
    match cell.coord with
    | some co =>
        if (assocLookup st1.cells_by_coord co).isSome then
          { st1 with cells_by_coord := assocErase st1.cells_by_coord co }
        else st1
    | none => st1
  let st3 :=
    if cellInUidKeys cell st2.cells_by_uid then
      { st2 with cells_by_uid := assocErase st2.cells_by_uid cell.uid }
    else st2
  match removeFromAllCoordTuples st3.cells_by_coord_tuple (cell.coords.map Prod.fst) cell with
  | .error e => .error e
  | .ok d => .ok { st3 with cells_by_coord_tuple := d }

/-- CellMgr.by_coord (cell.py lines 661-663): plain dict .get with None for
a miss. -/
def by_coord (st : CellMgrState) (coord : CubedCoord) : Option Cell :=
  assocLookup st.cells_by_coord coord

/-- Shared coordinate for the duplicate-registration scenario. -/
def c4_coord : CubedCoord := ⟨0, 0, 0, 0⟩

/-- First cell registered at c4_coord. -/
def c4_cellA : Cell := ⟨1, some "alpha", some c4_coord, [(0, c4_coord)]⟩

/-- Second, distinct cell registered at the same coordinate. -/
def c4_cellB : Cell := ⟨2, some "beta", some c4_coord, [(0, c4_coord)]⟩

/-- Registering c4_cellA and then c4_cellB on a fresh manager. -/
def c4_after : Except String CellMgrState :=
  match register_cell emptyMgr c4_cellA with
  | .error e => .error e
  | .ok st => register_cell st c4_cellB

/-- C4: registering a second, distinct cell at an already-claimed coordinate
does NOT fail: the duplicate check compares the coordinate against
dict.items() pairs and never fires, so the second registration succeeds,
silently overwrites the by-coordinate binding, and grows the name, uid and
by-system indexes. -/
theorem register_duplicate_coord_overwrites :
    isOkE c4_after = true ∧
    ((toOpt c4_after).bind fun st => by_coord st c4_coord) = some c4_cellB ∧
    ((toOpt c4_after).bind fun st => assocLookup st.cells_by_coord_tuple 0)
      = some [c4_cellA, c4_cellB] ∧
    c4_cellB ≠ c4_cellA := by decide

/-- Coordinate of the registered cell in the unregister scenario. -/
def c8_coord : CubedCoord := ⟨1, -1, 0, 0⟩

/-- A fully registered cell: name, default coordinate, one coordinate-bag
entry. -/
def c8_cell : Cell := ⟨7, some "alpha", some c8_coord, [(0, c8_coord)]⟩

/-- The registry state after c8_cell was registered on a fresh manager: all
four indexes hold the cell. -/
def c8_registered : CellMgrState :=
  ⟨[(c8_coord, c8_cell)], [(0, [c8_cell])], [("alpha", c8_cell)], [(7, c8_cell)]⟩

/-- A cell the registry has never seen, with no name and no coordinates. -/
def c8_unknown : Cell := ⟨9, none, none, []⟩

/-- C8: unregister_cell removes the cell from the name, coordinate and
by-system indexes but NOT from the uid index (the guard compares the cell
object against integer uid keys and never fires), and unregistering a cell
unknown to the registry returns without failing. -/
theorem unregister_leaves_uid_index :
    isOkE (unregister_cell c8_registered c8_cell) = true ∧
    ((toOpt (unregister_cell c8_registered c8_cell)).bind
      fun st => assocLookup st.cells_by_uid 7) = some c8_cell ∧
    ((toOpt (unregister_cell c8_registered c8_cell)).map
      fun st => (st.cells_by_name, st.cells_by_coord)) = some ([], []) ∧
    toOpt (unregister_cell emptyMgr c8_unknown) = some emptyMgr := by decide

/-- The direction vector self.dirs[side] of the hex system instance owning a
coordinate: the table entries are constructed with system=self in
HexCoordinateSystem.__init__, so they carry the owning system tag. -/
def hexDirOwned (sys : Nat) (side : Nat) : CubedCoord :=
  ⟨(hexDir side).x, (hexDir side).y, (hexDir side).z, sys⟩

/-- The call CellMgr.by_coord(coord + ...) at cell.py line 190: by_coord is
an instance method of two parameters (self and coord) accessed on the class
object and called with a single positional argument, so Python raises
TypeError before any registry lookup can run; no registry instance is
reachable from the cell. -/
def unbound_by_coord_call (_ : CubedCoord) : Except String (Option Cell) :=
  .error "TypeError: by_coord missing 1 required positional argument"

/-- Cell.get_neighbor (cell.py lines 186-190): coord = self.get_coord(id),
then return CellMgr.by_coord(coord + coord.system.dirs[side]). -/
def get_neighbor (coords : List (Nat × CubedCoord)) (sysid : Nat) (side : Nat) :
    Except String (Option Cell) :=
  match assocLookup coords sysid with
  | none => .error "AttributeError: cannot add to a missing coordinate"
  | some coord =>
    match cubedAdd coord (hexDirOwned coord.system side) with
    | .error e => .error e
    | .ok n => unbound_by_coord_call n

/-- C7: for every cell that has a coordinate in the requested system and
every in-range side, get_neighbor never resolves a neighbor: the class-level
call of the instance method by_coord raises TypeError unconditionally. -/
theorem get_neighbor_always_type_errors (coords : List (Nat × CubedCoord))
    (sysid side : Nat) (coord : CubedCoord)
    (hc : assocLookup coords sysid = some coord) (_hs : side < 6) :
    get_neighbor coords sysid side
      = .error "TypeError: by_coord missing 1 required positional argument" := by
  unfold get_neighbor
  simp only [hc]
  have hadd : cubedAdd coord (hexDirOwned coord.system side)
      = .ok ⟨coord.x + (hexDir side).x, coord.y + (hexDir side).y,
             coord.z + (hexDir side).z, coord.system⟩ := by
    simp [cubedAdd, hexDirOwned]
  rw [hadd]
  rfl

/-- C7 witness: a cell holding the origin of hex system 0, queried on side 0. -/
theorem get_neighbor_always_type_errors_witness :
    get_neighbor [(0, ⟨0, 0, 0, 0⟩)] 0 0
      = .error "TypeError: by_coord missing 1 required positional argument" :=
  get_neighbor_always_type_errors [(0, ⟨0, 0, 0, 0⟩)] 0 0 ⟨0, 0, 0, 0⟩
    (by decide) (by decide)

/-- Process-wide state relevant to CellMgr construction: the class-level
callback lists Cell.assign_coord_cbs and Cell.creation_cbs (cell.py lines
34-35, class attributes shared by the whole process, holding the ids of the
managers whose bound methods were appended) together with every constructed
manager's per-instance index state. -/
structure ProcState where
  assign_cbs : List Nat
  creation_cbs : List Nat
  mgrs : List (Nat × CellMgrState)
deriving DecidableEq

/-- The process before any CellMgr is constructed. -/
def procEmpty : ProcState := ⟨[], [], []⟩

/-- CellMgr.__init__ (cell.py lines 230-236): fresh per-instance index
dicts, then Cell.register_assign_coord_callback(self.register_coord_to_cell)
and Cell.register_creation_callback(self.register_cell), which append this
manager to the two class-level lists shared by every Cell ever constructed. -/
def cellMgr_init (ps : ProcState) : ProcState :=
  let mid := ps.mgrs.length
  { assign_cbs := ps.assign_cbs ++ [mid],
    creation_cbs := ps.creation_cbs ++ [mid],
    mgrs := ps.mgrs ++ [(mid, emptyMgr)] }

/-- Run one bound-method callback: apply f to the state of manager mid. -/
def applyAtMgr (ps : ProcState) (mid : Nat)
    (f : CellMgrState → Except String CellMgrState) : Except String ProcState :=
  match assocLookup ps.mgrs mid with
  | none => .ok ps
  | some m =>
    match f m with
    | .error e => .error e
    | .ok m2 => .ok { ps with mgrs := assocInsert ps.mgrs mid m2 }

/-- Fire a callback list in order, as Cell.__init__ and Cell.assign_coord
do, threading the process state. -/
def fireCallbacks (ps : ProcState) (cbs : List Nat)
    (f : CellMgrState → Except String CellMgrState) : Except String ProcState :=
  match cbs with
  | [] => .ok ps
  | mid :: rest =>
    match applyAtMgr ps mid f with
    | .error e => .error e
    | .ok ps2 => fireCallbacks ps2 rest f

/-- Cell.__init__ (cell.py lines 37-67) for a cell constructed with a
coordinate, as CellMgr.create_cell does at line 303: assign_coord fires
every callback in Cell.assign_coord_cbs (lines 124-126), running
register_coord_to_cell on EVERY constructed manager, and the creation
callbacks then run register_cell on EVERY constructed manager (lines
65-67). -/
def cell_init (ps : ProcState) (cell : Cell) : Except String ProcState :=
  match (match cell.coord with
         | some co => fireCallbacks ps ps.assign_cbs
             (fun m => register_coord_to_cell m cell co)
         | none => .ok ps) with
  | .error e => .error e
  | .ok ps2 => fireCallbacks ps2 ps2.creation_cbs (fun m => register_cell m cell)

/-- The process after two CellMgr instances (ids 0 and 1) are constructed. -/
def c9_two_mgrs : ProcState := cellMgr_init (cellMgr_init procEmpty)

/-- Coordinate of the cell created after both managers exist. -/
def c9_coord : CubedCoord := ⟨1, -1, 0, 3⟩

/-- The single cell created after both managers exist. -/
def c9_cell : Cell := ⟨5, some "hall", some c9_coord, [(3, c9_coord)]⟩

/-- C9: registry state is not instance-owned in effect: before the cell is
created, manager 1 resolves nothing by uid 5; creating ONE cell (the act
CellMgr.create_cell performs for one session) succeeds and lands the cell in
BOTH managers' uid indexes, because the creation and assign-coord callback
lists are class-level state on Cell shared by every constructed CellMgr.
Whichever session the creation belonged to, the other instance's lookup
results changed. -/
theorem cellmgr_instances_interfere :
    ((assocLookup c9_two_mgrs.mgrs 1).bind fun m => assocLookup m.cells_by_uid 5)
      = none ∧
    isOkE (cell_init c9_two_mgrs c9_cell) = true ∧
    ((toOpt (cell_init c9_two_mgrs c9_cell)).bind fun ps =>
       (assocLookup ps.mgrs 1).bind fun m => assocLookup m.cells_by_uid 5)
      = some c9_cell ∧
    ((toOpt (cell_init c9_two_mgrs c9_cell)).bind fun ps =>
       (assocLookup ps.mgrs 0).bind fun m => assocLookup m.cells_by_uid 5)
      = some c9_cell := by decide
